import Mathlib

/-!
Shallow embedding of the RDS maintenance-notification script (src/main.py).

The script performs one run: fetch RDS instance metadata (with a catch-all
fallback to a degraded record), search the mailbox for a prior report with a
fixed subject (with a catch-all fallback to "no conversation"), then compose
and send either a NEW message or a REPLY threaded onto the prior message.

External I/O is modelled by outcome parameters: the cloud fetch is a
`FetchOutcome` (either the describe-instances response or the text of a
raised exception), and the mailbox session is a `MailboxOutcome` (either the
list of matching messages in mailbox order or the text of a raised
exception).  Python statements that raise (attribute access on an absent
header, string concatenation with `None`) are modelled with `Except`, the
error carrying the exception class that Python would raise at that line.
-/

namespace RDSReport

/-- Configuration constant `DB_INSTANCE_ID` (main.py line 15). -/
def DB_INSTANCE_ID : String := "devdatabase"

/-- Configuration constant `RECIPIENTS`, the mandatory recipient list
(main.py lines 29-33). -/
def RECIPIENTS : List String :=
  ["trinadh5121@gmail.com",
   "keerthisetty2001@gmail.com",
   "2021tm70803@wilp.bitspilani.ac.in"]

/-- Configuration constant `MAIL_SUBJECT`, the fixed subject the script both
sends under and searches for (main.py line 36). -/
def MAIL_SUBJECT : String := "Weekly RDS Maintenance Report"

/-- The flat record produced by `get_rds_details` (a Python dict).  Fields
absent from the degraded variant (`endpoint`, `maintenance_window`) are
`Option`s; `dict.get` on an absent key yields `none`, rendered as the text
`"None"` by the f-string.  `pending_mods` models the
`PendingModifiedValues` mapping as an association list. -/
structure ResourceStatusRecord where
  engine : String
  version : String
  status : String
  endpoint : Option String
  maintenance_window : Option String
  pending_mods : List (String × String)
deriving DecidableEq

/-- The fields of the describe-db-instances response that
`get_rds_details` reads (main.py lines 49-59).  `endpointAddress` is
`none` when the response carries no `Endpoint`/`Address` entry. -/
structure DBInstance where
  engine : String
  engineVersion : String
  dbInstanceStatus : String
  endpointAddress : Option String
  preferredMaintenanceWindow : String
  pendingModifiedValues : List (String × String)
deriving DecidableEq

/-- Outcome of the cloud control-plane call: either a response, or the text
of whatever exception was raised anywhere inside the `try` block. -/
inductive FetchOutcome where
  | ok (db : DBInstance)
  | err (message : String)
deriving DecidableEq

/-- Embedding of `get_rds_details` (main.py lines 38-64): on success,
extract the six fields (endpoint defaulting to `"No Endpoint"`); on any
exception, return the degraded record whose `status` is the exception text
and whose `engine`/`version` are the sentinel `"Error"`, with an empty
pending-modifications mapping and no `endpoint`/`maintenance_window` keys. -/
def get_rds_details : FetchOutcome → ResourceStatusRecord
  | .ok db =>
    { engine := db.engine
      version := db.engineVersion
      status := db.dbInstanceStatus
      endpoint := some (db.endpointAddress.getD "No Endpoint")
      maintenance_window := some db.preferredMaintenanceWindow
      pending_mods := db.pendingModifiedValues }
  | .err e =>
    { engine := "Error"
      version := "Error"
      status := e
      endpoint := none
      maintenance_window := none
      pending_mods := [] }

/-- A prior message as `find_existing_thread` returns it: the headers that
`send_report` reads.  Header access `msg[name]` yields `none` when the
header is absent.  `toAddrs`/`ccAddrs`/`fromAddrs` are the address lists
that `email.utils.getaddresses` extracts from the To, Cc and From header
values (the display headers `toHeader`/`ccHeader` are kept verbatim as raw
strings, since `send_report` copies them unparsed). -/
structure PriorMsg where
  subject : Option String
  messageId : Option String
  references : Option String
  toHeader : Option String
  ccHeader : Option String
  toAddrs : List String
  ccAddrs : List String
  fromAddrs : List String
deriving DecidableEq

/-- Outcome of the IMAP session: either the list of messages matching the
subject search, in mailbox order (the script takes the last id and fetches
it), or the text of whatever exception was raised inside the `try` block. -/
inductive MailboxOutcome where
  | search (hits : List PriorMsg)
  | err (message : String)
deriving DecidableEq

/-- Embedding of `find_existing_thread` (main.py lines 66-90): no match
returns `none`; a match returns the message with the last (highest) id;
any exception is caught and also returns `none`. -/
def find_existing_thread : MailboxOutcome → Option PriorMsg
  | .search ms => ms.getLast?
  | .err _ => none

/-- The outgoing MIME message together with the envelope recipient list
(`final_to_list`) handed to `server.sendmail`. -/
structure OutMsg where
  subject : String
  toHeader : Option String
  ccHeader : Option String
  fromHeader : String
  inReplyTo : Option String
  references : Option String
  body : String
  envelope : List String
deriving DecidableEq

/-- Python repr of a str-to-str dict, as the f-string renders
`pending_mods` when it is non-empty. -/
def pythonDictRepr (m : List (String × String)) : String :=
  "\x7b" ++ String.intercalate ", "
    (m.map (fun kv => "\x27" ++ kv.1 ++ "\x27: \x27" ++ kv.2 ++ "\x27")) ++ "\x7d"

/-- Rendering of `data.get('pending_mods') if data.get('pending_mods') else "None"`:
an empty mapping is falsy and renders as `"None"`. -/
def pendingModsText (m : List (String × String)) : String :=
  if m.isEmpty then "None" else pythonDictRepr m

/-- Rendering of an `Option String` inside the f-string: Python formats
`None` as the text `"None"`. -/
def optText : Option String → String
  | some s => s
  | none => "None"

/-- The `html_body` f-string of `send_report` (main.py lines 97-114),
written right-associated so each interpolated field sits between two
literal chunks. -/
def htmlBody (data : ResourceStatusRecord) : String :=
  "\n    <html>\n    <body>\n        <h3 style=\"color: #2E86C1;\">RDS Maintenance Update</h3>\n        <p><b>Target Database:</b> " ++
  (DB_INSTANCE_ID ++
  ("</p>\n        <table border=\"1\" cellpadding=\"5\" cellspacing=\"0\" style=\"border-collapse: collapse;\">\n            <tr style=\"background-color: #f2f2f2;\"><th>Parameter</th><th>Value</th></tr>\n            <tr><td>Engine</td><td>" ++
  (data.engine ++
  ("</td></tr>\n            <tr><td>Current Version</td><td>" ++
  (data.version ++
  ("</td></tr>\n            <tr><td>Status</td><td>" ++
  (data.status ++
  ("</td></tr>\n            <tr><td>Maintenance Window</td><td>" ++
  (optText data.maintenance_window ++
  ("</td></tr>\n        </table>\n        <p><b>Pending Modifications:</b> " ++
  (pendingModsText data.pending_mods ++
  "</p>\n        <br>\n        <p>Regards,<br>Cloud Automation Bot</p>\n    </body>\n    </html>\n    ")))))))))))

/-- Python `str.lower()`: character-wise lowercasing (the subjects involved
are ASCII, where `Char.toLower` and Python agree). -/
def pyToLower (s : String) : String := ⟨s.data.map Char.toLower⟩

/-- Python `str.startswith(pre)`. -/
def pyStartsWith (s pre : String) : Bool := pre.data.isPrefixOf s.data

/-- Exception text for `None.lower()` at main.py line 130, raised when the
prior message has no Subject header. -/
def attrErrorLower : String :=
  "AttributeError: NoneType object has no attribute lower"

/-- Exception text for `str + None` at main.py line 134, raised when the
prior message has no Message-ID header. -/
def typeErrorConcat : String :=
  "TypeError: can only concatenate str and NoneType"

/-- The NEW branch of `send_report` (main.py lines 117-123): fixed subject,
To = the joined recipient list, Cc = the sender itself, envelope =
`RECIPIENTS + [EMAIL_USER]`. -/
def composeNew (sender body : String) : OutMsg :=
  { subject := MAIL_SUBJECT
    toHeader := some (String.intercalate ", " RECIPIENTS)
    ccHeader := some sender
    fromHeader := sender
    inReplyTo := none
    references := none
    body := body
    envelope := RECIPIENTS ++ [sender] }

/-- The REPLY branch of `send_report` (main.py lines 125-154).  Line 130
calls `.lower()` on the prior Subject (raises if absent); line 134
concatenates the prior Message-ID onto the References chain (raises if
absent; an absent References header is `None or ''` = the empty string).
The envelope is `list(set(reply_list + RECIPIENTS + [EMAIL_USER]))`,
modelled as a deduplicated list; the display To/Cc headers are copied
verbatim from the prior message. -/
def composeReply (sender body : String) (prior : PriorMsg) : Except String OutMsg :=
  match prior.subject with
  | none => .error attrErrorLower
  | some s =>
    let newSubject := if pyStartsWith (pyToLower s) "re:" then s else "Re: " ++ s
    match prior.messageId with
    | none => .error typeErrorConcat
    | some mid =>
      let replyList := prior.toAddrs ++ prior.ccAddrs ++ prior.fromAddrs
      .ok { subject := newSubject
            toHeader := prior.toHeader
            ccHeader := prior.ccHeader
            fromHeader := sender
            inReplyTo := some mid
            references := some ((prior.references.getD "") ++ " " ++ mid)
            body := body
            envelope := (replyList ++ RECIPIENTS ++ [sender]).dedup }

/-- Embedding of `send_report` (main.py lines 92-168): locate the prior
thread, then compose either the NEW message or the REPLY.  `sender` is the
`EMAIL_USER` environment value.  An `Except.error` is an uncaught exception
that terminates the run before any send is attempted (the SMTP `try` block
only guards the transmission itself, which is outside this model). -/
def send_report (sender : String) (data : ResourceStatusRecord)
    (mbox : MailboxOutcome) : Except String OutMsg :=
  match find_existing_thread mbox with
  | none => .ok (composeNew sender (htmlBody data))
  | some p => composeReply sender (htmlBody data) p

/-- Embedding of the `__main__` block (main.py lines 170-173): fetch, then
hand the record to `send_report` unconditionally. -/
def runMain (fetch : FetchOutcome) (mbox : MailboxOutcome)
    (sender : String) : Except String OutMsg :=
  send_report sender (get_rds_details fetch) mbox

/-- Substring containment stated structurally: `t` occurs in `s` when `s`
splits as `p ++ t ++ q`. -/
def containsSub (s t : String) : Prop := ∃ p q, s = p ++ (t ++ q)

/-- A concrete well-formed prior report message, used to instantiate the
REPLY-state theorems. -/
def prior0 : PriorMsg :=
  { subject := some "Weekly RDS Maintenance Report"
    messageId := some "<mid0@mail>"
    references := some ""
    toHeader := some "alice@example.com"
    ccHeader := some "carol@example.com"
    toAddrs := ["alice@example.com"]
    ccAddrs := ["carol@example.com"]
    fromAddrs := ["dave@example.com"] }

/-- The same prior context as `prior0` with the To and Cc address lists
exchanged, permuting the combined participant list. -/
def prior1 : PriorMsg :=
  { prior0 with toAddrs := ["carol@example.com"], ccAddrs := ["alice@example.com"] }

/-- A prior message carrying a Subject but no Message-ID header. -/
def priorNoMid : PriorMsg :=
  { subject := some "Weekly RDS Maintenance Report"
    messageId := none
    references := none
    toHeader := none
    ccHeader := none
    toAddrs := []
    ccAddrs := []
    fromAddrs := [] }

/-- A concrete valid (non-degraded) resource record. -/
def rec0 : ResourceStatusRecord :=
  { engine := "postgres"
    version := "16.3"
    status := "available"
    endpoint := some "db.example.com"
    maintenance_window := some "sun:05:00-sun:06:00"
    pending_mods := [] }

/-- The message `composeReply "bot@example.com" (htmlBody rec0) prior0`
evaluates to. -/
def msg0 : OutMsg :=
  { subject := "Re: Weekly RDS Maintenance Report"
    toHeader := some "alice@example.com"
    ccHeader := some "carol@example.com"
    fromHeader := "bot@example.com"
    inReplyTo := some "<mid0@mail>"
    references := some " <mid0@mail>"
    body := htmlBody rec0
    envelope := ["alice@example.com", "carol@example.com", "dave@example.com",
                 "trinadh5121@gmail.com", "keerthisetty2001@gmail.com",
                 "2021tm70803@wilp.bitspilani.ac.in", "bot@example.com"] }

/-- The message `composeReply "bot@example.com" (htmlBody rec0) prior1`
evaluates to. -/
def msg1 : OutMsg :=
  { msg0 with
    envelope := ["carol@example.com", "alice@example.com", "dave@example.com",
                 "trinadh5121@gmail.com", "keerthisetty2001@gmail.com",
                 "2021tm70803@wilp.bitspilani.ac.in", "bot@example.com"] }

/-- Characterization of the successful REPLY composition: it succeeds
exactly when the prior message carries a Subject and a Message-ID, and then
every field of the outgoing message is determined. -/
theorem composeReply_eq_ok {sender body : String} {p : PriorMsg} {m : OutMsg} :
    composeReply sender body p = Except.ok m ↔
    ∃ s mid, p.subject = some s ∧ p.messageId = some mid ∧
      m = { subject := if pyStartsWith (pyToLower s) "re:" then s else "Re: " ++ s
            toHeader := p.toHeader
            ccHeader := p.ccHeader
            fromHeader := sender
            inReplyTo := some mid
            references := some ((p.references.getD "") ++ " " ++ mid)
            body := body
            envelope := ((p.toAddrs ++ p.ccAddrs ++ p.fromAddrs) ++ RECIPIENTS
                          ++ [sender]).dedup } := by
  unfold composeReply
  cases hs : p.subject with
  | none => simp
  | some s =>
    cases hm : p.messageId with
    | none => simp
    | some mid =>
      constructor
      · intro h
        injection h with h
        exact ⟨s, mid, rfl, rfl, h.symm⟩
      · rintro ⟨s', mid', hs', hm', rfl⟩
        obtain rfl : s = s' := by injection hs'
        obtain rfl : mid = mid' := by injection hm'
        rfl

/-- Occurrence at the front of the remaining text. -/
theorem containsSub_intro (a t b : String) : containsSub (a ++ (t ++ b)) t :=
  ⟨a, b, rfl⟩

/-- Occurrence is preserved by prepending more text. -/
theorem containsSub_cons (a : String) {s t : String} (h : containsSub s t) :
    containsSub (a ++ s) t := by
  obtain ⟨p, q, rfl⟩ := h
  exact ⟨a ++ p, q, (String.append_assoc a p (t ++ q)).symm⟩

/-- C1: for every resource record and every mailbox outcome (hence every
prior-message participant set), whenever `send_report` composes a message —
in the NEW state as well as in the REPLY state — its send-envelope contains
the sender's own address and every configured mandatory recipient. -/
theorem send_envelope_contains_sender_and_mandatory
    (sender : String) (data : ResourceStatusRecord) (mbox : MailboxOutcome)
    (m : OutMsg) (h : send_report sender data mbox = Except.ok m) :
    sender ∈ m.envelope ∧ RECIPIENTS ⊆ m.envelope := by
  unfold send_report at h
  cases hf : find_existing_thread mbox with
  | none =>
    rw [hf] at h
    have h' : Except.ok (composeNew sender (htmlBody data)) = Except.ok m := h
    injection h' with h'
    subst h'
    refine ⟨?_, fun r hr => ?_⟩
    · simp [composeNew]
    · simp only [composeNew, List.mem_append]
      exact Or.inl hr
  | some p =>
    rw [hf] at h
    have h' : composeReply sender (htmlBody data) p = Except.ok m := h
    rcases composeReply_eq_ok.mp h' with ⟨s, mid, _, _, rfl⟩
    refine ⟨?_, fun r hr => ?_⟩
    · simp [List.mem_dedup]
    · simp only [List.mem_dedup, List.mem_append]
      exact Or.inl (Or.inr hr)

/-- Witness for C1: a concrete REPLY-state run whose envelope contains the
sender and all mandatory recipients. -/
theorem send_envelope_contains_sender_and_mandatory_witness :
    "bot@example.com" ∈ msg0.envelope ∧ RECIPIENTS ⊆ msg0.envelope :=
  send_envelope_contains_sender_and_mandatory "bot@example.com" rec0
    (.search [prior0]) msg0 rfl

/-- C2: in the REPLY state, the outgoing subject is the prior subject
unchanged when the prior subject already case-insensitively starts with
"Re:", and otherwise is "Re: " prepended to the prior subject (never a
double prefixing). -/
theorem reply_subject_threading
    (sender body s : String) (p : PriorMsg) (m : OutMsg)
    (hs : p.subject = some s)
    (h : composeReply sender body p = Except.ok m) :
    (pyStartsWith (pyToLower s) "re:" = true → m.subject = s) ∧
    (pyStartsWith (pyToLower s) "re:" = false → m.subject = "Re: " ++ s) := by
  rcases composeReply_eq_ok.mp h with ⟨s', mid, hs', _, rfl⟩
  rw [hs] at hs'
  obtain rfl : s = s' := by injection hs'
  constructor <;> intro hre <;> simp [hre]

/-- Witness for C2: replying to the fixed subject yields exactly the
"Re: "-prefixed subject. -/
theorem reply_subject_threading_witness :
    (pyStartsWith (pyToLower "Weekly RDS Maintenance Report") "re:" = true →
      msg0.subject = "Weekly RDS Maintenance Report") ∧
    (pyStartsWith (pyToLower "Weekly RDS Maintenance Report") "re:" = false →
      msg0.subject = "Re: " ++ "Weekly RDS Maintenance Report") :=
  reply_subject_threading "bot@example.com" (htmlBody rec0)
    "Weekly RDS Maintenance Report" prior0 msg0 rfl rfl

/-- C3: for every fetch error, `get_rds_details` returns the degraded
record — status the error text, engine and version the sentinel "Error",
empty pending-modifications mapping — and the `__main__` run still hands
that record to the dispatcher and completes a send attempt. -/
theorem fetch_error_degrades_and_send_attempted (e sender : String) :
    get_rds_details (.err e) =
      { engine := "Error", version := "Error", status := e,
        endpoint := none, maintenance_window := none, pending_mods := [] } ∧
    runMain (.err e) (.search []) sender =
      Except.ok (composeNew sender (htmlBody (get_rds_details (.err e)))) :=
  ⟨rfl, rfl⟩

/-- C4: in the REPLY state the outgoing References header is the prior
References value (empty when absent) concatenated with one space and the
prior Message-ID; for an empty prior References it is exactly the space
followed by the Message-ID. -/
theorem reply_references_chain
    (sender body mid : String) (p : PriorMsg) (m : OutMsg)
    (hm : p.messageId = some mid)
    (h : composeReply sender body p = Except.ok m) :
    m.references = some ((p.references.getD "") ++ " " ++ mid) ∧
    (p.references = some "" → m.references = some (" " ++ mid)) := by
  rcases composeReply_eq_ok.mp h with ⟨s, mid', _, hm', rfl⟩
  rw [hm] at hm'
  obtain rfl : mid = mid' := by injection hm'
  refine ⟨rfl, fun hr => ?_⟩
  rw [hr]
  rfl

/-- Witness for C4: the concrete prior message has References `""`, and the
outgoing header is the leading space followed by the prior Message-ID. -/
theorem reply_references_chain_witness :
    msg0.references = some ((prior0.references.getD "") ++ " " ++ "<mid0@mail>") ∧
    (prior0.references = some "" → msg0.references = some (" " ++ "<mid0@mail>")) :=
  reply_references_chain "bot@example.com" (htmlBody rec0) "<mid0@mail>"
    prior0 msg0 rfl rfl

/-- C5: the REPLY-state send-envelope has set semantics — two prior
contexts whose combined To+Cc+From address lists are permutations of each
other produce the same envelope set (and in particular recomputation from
an identical context is idempotent). -/
theorem reply_envelope_set_semantics
    (sender body : String) (p q : PriorMsg) (m m' : OutMsg)
    (hperm : (p.toAddrs ++ p.ccAddrs ++ p.fromAddrs).Perm
             (q.toAddrs ++ q.ccAddrs ++ q.fromAddrs))
    (h : composeReply sender body p = Except.ok m)
    (h' : composeReply sender body q = Except.ok m') :
    m.envelope.toFinset = m'.envelope.toFinset := by
  rcases composeReply_eq_ok.mp h with ⟨s, mid, _, _, rfl⟩
  rcases composeReply_eq_ok.mp h' with ⟨s', mid', _, _, rfl⟩
  apply List.toFinset.ext_iff.mpr
  intro x
  simp only [List.mem_dedup, List.mem_append, hperm.mem_iff]

/-- Witness for C5: permuting the prior To/Cc address lists leaves the
concrete envelope set unchanged. -/
theorem reply_envelope_set_semantics_witness :
    msg0.envelope.toFinset = msg1.envelope.toFinset :=
  reply_envelope_set_semantics "bot@example.com" (htmlBody rec0) prior0 prior1
    msg0 msg1 (by decide) rfl rfl

/-- C6: the Conversation Locator returns "no conversation" when the search
matches nothing, every caught error yields the very same result, and the
two cases are indistinguishable to the caller. -/
theorem locator_never_raises (e : String) :
    find_existing_thread (.search []) = none ∧
    find_existing_thread (.err e) = none ∧
    find_existing_thread (.err e) = find_existing_thread (.search []) :=
  ⟨rfl, rfl, rfl⟩

/-- C7: when the locator finds no conversation, the dispatcher takes the
NEW path: the outgoing subject is exactly the fixed configured subject and
the message carries no In-Reply-To header. -/
theorem new_path_fixed_subject_no_reply_header
    (sender : String) (data : ResourceStatusRecord) (mbox : MailboxOutcome)
    (m : OutMsg) (hf : find_existing_thread mbox = none)
    (h : send_report sender data mbox = Except.ok m) :
    m.subject = MAIL_SUBJECT ∧ m.inReplyTo = none := by
  unfold send_report at h
  rw [hf] at h
  have h' : Except.ok (composeNew sender (htmlBody data)) = Except.ok m := h
  injection h' with h'
  subst h'
  exact ⟨rfl, rfl⟩

/-- Witness for C7: an empty search result takes the NEW path with the
fixed subject and no In-Reply-To header. -/
theorem new_path_fixed_subject_no_reply_header_witness :
    (composeNew "bot@example.com" (htmlBody rec0)).subject = MAIL_SUBJECT ∧
    (composeNew "bot@example.com" (htmlBody rec0)).inReplyTo = none :=
  new_path_fixed_subject_no_reply_header "bot@example.com" rec0 (.search [])
    (composeNew "bot@example.com" (htmlBody rec0)) rfl rfl

/-- C8: in the REPLY state the displayed To and Cc headers are copied
verbatim from the prior message, untouched by the envelope union. -/
theorem reply_display_headers_verbatim
    (sender body : String) (p : PriorMsg) (m : OutMsg)
    (h : composeReply sender body p = Except.ok m) :
    m.toHeader = p.toHeader ∧ m.ccHeader = p.ccHeader := by
  rcases composeReply_eq_ok.mp h with ⟨s, mid, _, _, rfl⟩
  exact ⟨rfl, rfl⟩

/-- Witness for C8: the concrete reply keeps the prior display headers. -/
theorem reply_display_headers_verbatim_witness :
    msg0.toHeader = prior0.toHeader ∧ msg0.ccHeader = prior0.ccHeader :=
  reply_display_headers_verbatim "bot@example.com" (htmlBody rec0) prior0 msg0 rfl

/-- C9: for every valid (non-degraded) resource record — one whose
maintenance-window field is present — the generated HTML body contains the
record's engine, version, status and maintenance-window values as literal
substrings. -/
theorem html_contains_record_fields (data : ResourceStatusRecord) (w : String)
    (hw : data.maintenance_window = some w) :
    containsSub (htmlBody data) data.engine ∧
    containsSub (htmlBody data) data.version ∧
    containsSub (htmlBody data) data.status ∧
    containsSub (htmlBody data) w := by
  unfold htmlBody
  rw [hw]
  refine ⟨?_, ?_, ?_, ?_⟩
  · exact containsSub_cons _ (containsSub_cons _ (containsSub_intro _ _ _))
  · exact containsSub_cons _ (containsSub_cons _ (containsSub_cons _
      (containsSub_cons _ (containsSub_intro _ _ _))))
  · exact containsSub_cons _ (containsSub_cons _ (containsSub_cons _
      (containsSub_cons _ (containsSub_cons _ (containsSub_cons _
        (containsSub_intro _ _ _))))))
  · exact containsSub_cons _ (containsSub_cons _ (containsSub_cons _
      (containsSub_cons _ (containsSub_cons _ (containsSub_cons _
        (containsSub_cons _ (containsSub_cons _ (containsSub_intro _ _ _))))))))

/-- Witness for C9: the concrete valid record's four field values occur in
its generated HTML body. -/
theorem html_contains_record_fields_witness :
    containsSub (htmlBody rec0) "postgres" ∧
    containsSub (htmlBody rec0) "16.3" ∧
    containsSub (htmlBody rec0) "available" ∧
    containsSub (htmlBody rec0) "sun:05:00-sun:06:00" :=
  html_contains_record_fields rec0 "sun:05:00-sun:06:00" rfl

/-- C10: a prior message lacking a Message-ID header makes the REPLY
composition raise while building the References header (the run ends with
no send attempted), and a successful REPLY composition forces both a
Subject and a Message-ID to be present on the prior message. -/
theorem reply_requires_subject_and_message_id
    (p q : PriorMsg) (s sender body : String) (fetch : FetchOutcome)
    (m : OutMsg)
    (hs : p.subject = some s) (hmid : p.messageId = none)
    (hq : composeReply sender body q = Except.ok m) :
    composeReply sender body p = Except.error typeErrorConcat ∧
    runMain fetch (.search [p]) sender = Except.error typeErrorConcat ∧
    q.subject.isSome = true ∧ q.messageId.isSome = true := by
  rcases composeReply_eq_ok.mp hq with ⟨s', mid', hs', hm', _⟩
  have h1 : composeReply sender body p = Except.error typeErrorConcat := by
    unfold composeReply
    rw [hs, hmid]
  have h2 : runMain fetch (.search [p]) sender = Except.error typeErrorConcat := by
    show send_report sender (get_rds_details fetch) (.search [p]) = _
    unfold send_report
    have hloc : find_existing_thread (.search [p]) = some p := rfl
    rw [hloc]
    show composeReply sender (htmlBody (get_rds_details fetch)) p =
      Except.error typeErrorConcat
    unfold composeReply
    rw [hs, hmid]
  exact ⟨h1, h2, by simp [hs'], by simp [hm']⟩

/-- Witness for C10: a concrete prior message with a Subject but no
Message-ID crashes the REPLY composition and the whole run, while the
concrete successful reply had both headers present. -/
theorem reply_requires_subject_and_message_id_witness :
    composeReply "bot@example.com" (htmlBody rec0) priorNoMid =
      Except.error typeErrorConcat ∧
    runMain (.err "boom") (.search [priorNoMid]) "bot@example.com" =
      Except.error typeErrorConcat ∧
    prior0.subject.isSome = true ∧ prior0.messageId.isSome = true :=
  reply_requires_subject_and_message_id priorNoMid prior0
    "Weekly RDS Maintenance Report" "bot@example.com" (htmlBody rec0)
    (.err "boom") msg0 rfl rfl rfl

end RDSReport
